import Mathlib

/-!
Shallow embedding of `certgen.py`, an interactive OpenSSL certificate
generator.  The script is a straight-line orchestration: it checks that the
`openssl` executable is available, optionally creates a root CA, collects a
domain and alternate names from the operator, writes an OpenSSL configuration
file and invokes `openssl` to produce a key, a CSR and a signed certificate.

The embedding models the effectful run as a list of events (prints, prompts,
`subprocess.run` invocations, directory creation, file writes) produced from
an environment that fixes the results of `shutil.which`, `os.path.exists`
and the three `input` calls.  An uncaught Python exception is modelled as
`Except.error`.  Python string primitives used by the script
(`str.strip`, `str.lower`, `str.split`, `str.replace`, `in`) are modelled
explicitly on `List Char` by structural recursion so that every definition
evaluates inside the kernel.
-/

namespace Certgen

/-- Python whitespace for `str.strip`: space, tab, newline, carriage return,
vertical tab, form feed. -/
def pyIsSpace (c : Char) : Bool :=
  c == ' ' || c == '\t' || c == '\n' || c == '\r' || c == '\x0b' || c == '\x0c'

/-- Python `str.strip()`: drop leading and trailing whitespace. -/
def pyStrip (s : String) : String :=
  ⟨((s.data.dropWhile pyIsSpace).reverse.dropWhile pyIsSpace).reverse⟩

/-- ASCII lowercase conversion of one character, as Python `str.lower`
behaves on the ASCII inputs this script deals with. -/
def pyLowerChar (c : Char) : Char :=
  if 'A' ≤ c && c ≤ 'Z' then Char.ofNat (c.toNat + 32) else c

/-- Python `str.lower()` (ASCII fragment). -/
def pyLower (s : String) : String :=
  ⟨s.data.map pyLowerChar⟩

/-- Python `str.split(',')` on the character list: split at every comma,
keeping empty segments (`"".split(',') == ['']`). -/
def splitCommaAux : List Char → List (List Char)
  | [] => [[]]
  | c :: rest =>
    match splitCommaAux rest with
    | [] => [[c]]
    | g :: gs => if c == ',' then [] :: g :: gs else (c :: g) :: gs

/-- Python `s.split(',')`. -/
def pySplitComma (s : String) : List String :=
  (splitCommaAux s.data).map String.mk

/-- Auxiliary for Python `str.replace`: scan left to right; `skip` counts
characters of an already-replaced occurrence still to be consumed.  At
`skip = 0`, if the pattern matches at the current position the replacement is
emitted and the matched characters are skipped, otherwise the character is
copied. -/
def replaceAllAux (pat rep : List Char) : Nat → List Char → List Char
  | _, [] => []
  | Nat.succ k, _ :: rest => replaceAllAux pat rep k rest
  | 0, c :: rest =>
    if pat.isPrefixOf (c :: rest) then
      rep ++ replaceAllAux pat rep (pat.length - 1) rest
    else
      c :: replaceAllAux pat rep 0 rest

/-- Python `s.replace(pat, rep)` for a nonempty pattern: replace every
non-overlapping occurrence, scanning left to right. -/
def pyReplace (s pat rep : String) : String :=
  ⟨replaceAllAux pat.data rep.data 0 s.data⟩

/-- Whether `pat` occurs as a contiguous substring (used to state when
`pyReplace` leaves a string unchanged). -/
def hasSubstrAux (pat : List Char) : List Char → Bool
  | [] => pat.isEmpty
  | c :: rest => pat.isPrefixOf (c :: rest) || hasSubstrAux pat rest

/-- String-level substring occurrence test. -/
def hasSubstr (pat s : String) : Bool :=
  hasSubstrAux pat.data s.data

/-- Python `c in s` for a single character `c`. -/
def pyContainsChar (c : Char) (s : String) : Bool :=
  s.data.any (· == c)

/-- `certgen.py` line 140: parse the alternate-names input,
`[name.strip() for name in alt_names.split(',') if name.strip()]`. -/
def parseAltNames (s : String) : List String :=
  ((pySplitComma s).filter (fun nm => pyStrip nm != "")).map pyStrip

/-- `certgen.py` lines 141-142: prepend the main domain to the alternate-name
list unless it is already present. -/
def finalAltNames (domain : String) (altNamesList : List String) : List String :=
  if domain ∈ altNamesList then altNamesList else domain :: altNamesList

/-- One observable effect of a run: a `print`, an `input` prompt, a
`subprocess.run` invocation, an `os.makedirs`, or a file written through
`open(path, 'w')`. -/
inductive Event where
  | print (msg : String)
  | promptInput (msg : String)
  | run (args : List String)
  | makedirs (path : String)
  | writeFile (path : String) (content : String)
deriving Repr, DecidableEq

/-- Environment of a run: result of `shutil.which('openssl')`, the
`os.path.exists` oracle, and the operator's three replies. -/
structure Env where
  opensslAvailable : Bool
  pathExists : String → Bool
  rootCAResponse : String
  domainResponse : String
  altNamesResponse : String

/-- The fixed distinguished-name block of the config template above the
`CN` line (`certgen.py` lines 73-86). -/
def configHeaderPre : List String :=
  ["",
   "[ req ]",
   "default_bits       = 2048",
   "distinguished_name = req_distinguished_name",
   "req_extensions     = req_ext",
   "x509_extensions    = v3_req",
   "prompt             = no",
   "",
   "[ req_distinguished_name ]",
   "C  = US",
   "ST = State",
   "L  = City",
   "O  = Organization",
   "OU = Organizational Unit"]

/-- The fixed part of the config template below the `CN` line
(`certgen.py` lines 88-95). -/
def configHeaderPost : List String :=
  ["",
   "[ req_ext ]",
   "subjectAltName = @alt_names",
   "",
   "[ v3_req ]",
   "subjectAltName = @alt_names",
   "",
   "[ alt_names ]"]

/-- All lines of the f-string template written first
(`certgen.py` lines 73-96), with `CN = {domain}` interpolated. -/
def configHeaderLines (domain : String) : List String :=
  configHeaderPre ++ ("CN = " ++ domain) :: configHeaderPost

/-- The `DNS.<i> = <name>` lines written by the loop
`for i, alt_name in enumerate(alt_names, start=1)` (`certgen.py` lines
97-98). -/
def dnsLines (altNames : List String) : List String :=
  (List.enumFrom 1 altNames).map (fun p => "DNS." ++ toString p.1 ++ " = " ++ p.2)

/-- All lines of the generated `openssl.cnf`. -/
def configFileLines (domain : String) (altNames : List String) : List String :=
  configHeaderLines domain ++ dnsLines altNames

/-- Join lines into file content; every written line ends in a newline,
exactly as the template string and the `DNS` writes do. -/
def joinLines : List String → String
  | [] => ""
  | l :: ls => l ++ "\n" ++ joinLines ls

/-- Full text written to the config file. -/
def configContent (domain : String) (altNames : List String) : String :=
  joinLines (configFileLines domain altNames)

/-- `create_openssl_config` (`certgen.py` lines 68-100): strip the wildcard
marker from the directory name, write the config file, return its path
together with the emitted events. -/
def create_openssl_config (domain : String) (alt_names : List String) :
    String × List Event :=
  let dir_domain := pyReplace domain "*." ""
  let config_file := "domains/" ++ dir_domain ++ "/openssl.cnf"
  (config_file,
   [Event.writeFile config_file (configContent domain alt_names),
    Event.print ("Generated OpenSSL config: " ++ config_file)])

/-- `create_key` (`certgen.py` lines 41-45). -/
def create_key (domain : String) : String × List Event :=
  let key_file := "domains/" ++ domain ++ "/" ++ domain ++ ".key"
  (key_file,
   [Event.run ["openssl", "genrsa", "-out", key_file, "2048"],
    Event.print ("Generated key: " ++ key_file)])

/-- `create_csr` (`certgen.py` lines 47-54). -/
def create_csr (domain config_file : String) : String × List Event :=
  let csr_file := "domains/" ++ domain ++ "/" ++ domain ++ ".csr"
  (csr_file,
   [Event.run ["openssl", "req", "-new", "-key",
      "domains/" ++ domain ++ "/" ++ domain ++ ".key",
      "-out", csr_file, "-config", config_file],
    Event.print ("Generated CSR: " ++ csr_file)])

/-- `sign_certificate` (`certgen.py` lines 56-66). -/
def sign_certificate (domain config_file : String) : String × List Event :=
  let crt_file := "domains/" ++ domain ++ "/" ++ domain ++ ".crt"
  (crt_file,
   [Event.run ["openssl", "x509", "-req", "-in",
      "domains/" ++ domain ++ "/" ++ domain ++ ".csr",
      "-CA", "LocalRootCA.crt", "-CAkey", "LocalRootCA.key",
      "-passin", "pass:1234",
      "-CAcreateserial", "-out", crt_file, "-days", "365",
      "-sha256", "-extfile", config_file, "-extensions", "v3_req"],
    Event.print ("Generated Certificate: " ++ crt_file)])

/-- Events of the body of `create_root_ca` (`certgen.py` lines 13-39). -/
def create_root_ca_events : List Event :=
  [Event.print "Creating root CA certificate...",
   Event.run ["openssl", "genrsa", "-des3", "-passout", "pass:1234",
     "-out", "LocalRootCA.key", "4096"],
   Event.run ["openssl", "req", "-x509", "-new", "-nodes",
     "-key", "LocalRootCA.key", "-sha256", "-days", "3650",
     "-passin", "pass:1234",
     "-out", "LocalRootCA.crt",
     "-subj", "/C=US/ST=State/L=City/O=Local CA/OU=Development/CN=Local Root CA"],
   Event.run ["openssl", "x509", "-in", "LocalRootCA.crt",
     "-out", "LocalRootCA.pem", "-outform", "PEM"],
   Event.print "\nRoot CA created successfully!",
   Event.print "Location: ./LocalRootCA.key, ./LocalRootCA.crt and ./LocalRootCA.pem",
   Event.print "Root CA Key Password: 1234"]

/-- Parameter list of `create_root_ca` as declared at `certgen.py` line 13:
`def create_root_ca():` has no parameters. -/
def create_root_ca_params : List String := []

/-- Keyword arguments at the call site `create_root_ca(prefixName="Local")`
(`certgen.py` line 122). -/
def create_root_ca_callKwargs : List String := ["prefixName"]

/-- Python call binding: every keyword argument must name a declared
parameter, otherwise the call raises `TypeError` before the body runs. -/
def kwargsAccepted (params kwargs : List String) : Bool :=
  kwargs.all (fun k => params.contains k)

/-- The uncaught exception raised at `certgen.py` line 122. -/
def typeErrorMsg : String :=
  "TypeError: create_root_ca() got an unexpected keyword argument \x27prefixName\x27"

/-- Banner printed at `certgen.py` lines 107-116. -/
def bannerText : String :=
  "\nCertificate Generator with Wildcard Support\n-----------------------------------------\nFor wildcard certificates, use the following format:\n- Main domain: example.com\n- To include wildcard: *.example.com\nExample alternate names: \n- *.subdomain.example.com\n- specific.example.com\n"

/-- Prompt of the root-CA creation question (`certgen.py` line 120). -/
def rootCAPromptMsg : String :=
  "Root CA certificate not found. Do you want to create it? (y/n): "

/-- Prompt of the domain question (`certgen.py` line 127). -/
def domainPromptMsg : String :=
  "Enter the main domain (e.g., example.com or *.example.com): "

/-- Events of `main` from the domain prompt on (`certgen.py` lines
127-173); this part raises no exception. -/
def domainPhase (env : Env) : List Event :=
  let domain := pyStrip env.domainResponse
  if domain = "" then
    [Event.promptInput domainPromptMsg, Event.print "Domain cannot be empty!"]
  else
    let alt_names := pyStrip env.altNamesResponse
    let alt_names_list := finalAltNames domain (parseAltNames alt_names)
    let dir_domain := pyReplace domain "*." ""
    let domain_dir := "domains/" ++ dir_domain
    let cfg := create_openssl_config domain alt_names_list
    [Event.promptInput domainPromptMsg,
     Event.print "\nEnter alternate domain names (comma-separated)",
     Event.print "Examples:",
     Event.print "- For wildcard subdomains: *.app.example.com",
     Event.print "- For specific domains: admin.example.com",
     Event.promptInput "Alternate names: "]
    ++ (if env.pathExists "domains" then []
        else [Event.makedirs "domains", Event.print "Created directory: domains"])
    ++ (if env.pathExists domain_dir then []
        else [Event.makedirs domain_dir, Event.print ("Created directory: " ++ domain_dir)])
    ++ cfg.2
    ++ (create_key dir_domain).2
    ++ (create_csr dir_domain cfg.1).2
    ++ (sign_certificate dir_domain cfg.1).2
    ++ [Event.print "\nCertificate generation complete!",
        Event.print "\nUsage Instructions:",
        Event.print "1. Your certificate files are in the \x27domains\x27 directory"]
    ++ (if pyContainsChar '*' domain then
          [Event.print "2. This wildcard certificate will work for all subdomains at the specified level",
           Event.print "   For example, if your domain is *.example.com, it will work for:",
           Event.print "   - test.example.com",
           Event.print "   - dev.example.com",
           Event.print "   But NOT for: sub.test.example.com (different level)"]
        else [])

/-- `main` (`certgen.py` lines 102-173): the whole interactive run, as the
list of emitted events, or `Except.error` when an uncaught Python exception
terminates the process. -/
def main (env : Env) : Except String (List Event) :=
  if env.opensslAvailable = false then
    Except.ok
      [Event.print "Error: OpenSSL is not installed or not available in system PATH",
       Event.print "Please install OpenSSL and try again"]
  else if (env.pathExists "LocalRootCA.key" && env.pathExists "LocalRootCA.crt"
            && env.pathExists "LocalRootCA.pem") = false then
    if pyLower (pyStrip env.rootCAResponse) = "y" then
      if kwargsAccepted create_root_ca_params create_root_ca_callKwargs then
        Except.ok ([Event.print bannerText, Event.promptInput rootCAPromptMsg]
          ++ create_root_ca_events ++ domainPhase env)
      else
        Except.error typeErrorMsg
    else
      Except.ok [Event.print bannerText, Event.promptInput rootCAPromptMsg,
        Event.print "Cannot proceed without root CA certificate."]
  else
    Except.ok (Event.print bannerText :: domainPhase env)

/-- An event that creates a filesystem artifact: a directory creation, a
file write, or an external `openssl` invocation (which writes its `-out`
target). -/
def isCreation : Event → Bool
  | Event.run _ => true
  | Event.makedirs _ => true
  | Event.writeFile _ _ => true
  | _ => false

/-- Events of a successful run (the empty list on a crash). -/
def okEvents : Except String (List Event) → List Event
  | Except.ok evs => evs
  | Except.error _ => []

/-- A line of the generated config that belongs to the DNS block, i.e.
starts with the four characters `DNS.`. -/
def isDNSLine (l : String) : Bool :=
  "DNS.".data.isPrefixOf l.data

/-- The DNS block as the specification words it: one `DNS.<n> = <name>`
line per alternate name, numbered consecutively from 1 in input order. -/
def specDnsBlock (altNames : List String) : List String :=
  altNames.enum.map (fun p => "DNS." ++ toString (p.1 + 1) ++ " = " ++ p.2)

/-- If the pattern occurs nowhere in `s`, `replaceAllAux` copies `s`
unchanged. -/
theorem replaceAllAux_of_not_substr (pat rep : List Char) :
    ∀ s : List Char, hasSubstrAux pat s = false → replaceAllAux pat rep 0 s = s := by
  intro s
  induction s with
  | nil => intro _; rfl
  | cons c rest ih =>
    intro h
    simp only [hasSubstrAux, Bool.or_eq_false_iff] at h
    simp only [replaceAllAux, h.1, Bool.false_eq_true, if_false]
    rw [ih h.2]

/-- Stripping a leading `*.` wildcard marker: when the remainder contains no
further occurrence of `*.`, `pyReplace` removes exactly the marker. -/
theorem pyReplace_wildcard_head (rest : String) (h : hasSubstr "*." rest = false) :
    pyReplace ("*." ++ rest) "*." "" = rest := by
  obtain ⟨l⟩ := rest
  show String.mk (replaceAllAux ['*', '.'] [] 0 ('*' :: '.' :: l)) = String.mk l
  have h' : hasSubstrAux ['*', '.'] l = false := h
  have step : replaceAllAux ['*', '.'] [] 0 ('*' :: '.' :: l)
      = replaceAllAux ['*', '.'] [] 0 l := by
    simp [replaceAllAux, List.isPrefixOf]
  rw [step, replaceAllAux_of_not_substr _ _ _ h']

/-- A string without the character `*` contains no occurrence of `*.`. -/
theorem hasSubstrAux_star_of_not_mem (l : List Char) (h : l.any (· == '*') = false) :
    hasSubstrAux ['*', '.'] l = false := by
  induction l with
  | nil => rfl
  | cons c rest ih =>
    simp only [List.any_cons, Bool.or_eq_false_iff] at h
    have hc : ('*' == c) = false := by
      have hne := h.1
      simp only [beq_eq_false_iff_ne] at hne ⊢
      exact fun he => hne he.symm
    simp only [hasSubstrAux, List.isPrefixOf, hc, Bool.false_and, Bool.false_or]
    exact ih h.2

/-- A string without `*` is left unchanged by the wildcard stripping. -/
theorem pyReplace_of_no_star (d : String) (h : pyContainsChar '*' d = false) :
    pyReplace d "*." "" = d := by
  obtain ⟨l⟩ := d
  show String.mk (replaceAllAux ['*', '.'] [] 0 l) = String.mk l
  rw [replaceAllAux_of_not_substr _ _ _ (hasSubstrAux_star_of_not_mem l h)]

/-- The `CN = <domain>` line never belongs to the DNS block. -/
theorem isDNSLine_CN (d : String) : isDNSLine ("CN = " ++ d) = false := by
  obtain ⟨l⟩ := d
  rfl

/-- Every generated `DNS.<n> = <name>` line belongs to the DNS block. -/
theorem isDNSLine_dns (a b : String) : isDNSLine ("DNS." ++ a ++ " = " ++ b) = true := by
  obtain ⟨la⟩ := a
  obtain ⟨lb⟩ := b
  simp [isDNSLine, String.data_append, List.isPrefixOf]

/-- Enumeration from `i` is enumeration from `0` with indices shifted. -/
theorem enumFrom_eq_map {α : Type} (ns : List α) :
    ∀ i : Nat, List.enumFrom i ns = (List.enumFrom 0 ns).map (fun p => (p.1 + i, p.2)) := by
  induction ns with
  | nil => intro i; rfl
  | cons x rest ih =>
    intro i
    show (i, x) :: List.enumFrom (i + 1) rest
        = ((0, x) :: List.enumFrom 1 rest).map (fun p => (p.1 + i, p.2))
    rw [List.map_cons, ih (i + 1), ih 1, List.map_map]
    have hfun : ((fun p : Nat × α => (p.1 + i, p.2)) ∘ fun p : Nat × α => (p.1 + 1, p.2))
        = fun p : Nat × α => (p.1 + (i + 1), p.2) := by
      funext p
      simp only [Function.comp]
      exact congrArg (fun n => (n, p.2)) (by omega)
    rw [hfun]
    simp

/-- The fixed header above the `CN` line contributes nothing to the DNS
block. -/
theorem filter_configHeaderPre : configHeaderPre.filter isDNSLine = [] := by
  decide

/-- The fixed header below the `CN` line contributes nothing to the DNS
block. -/
theorem filter_configHeaderPost : configHeaderPost.filter isDNSLine = [] := by
  decide

/-- Filtering the generated DNS lines keeps all of them. -/
theorem filter_dnsLines (ns : List String) : (dnsLines ns).filter isDNSLine = dnsLines ns := by
  apply List.filter_eq_self.mpr
  intro a ha
  obtain ⟨p, _, rfl⟩ := List.mem_map.mp ha
  exact isDNSLine_dns (toString p.1) p.2

/-- Mapping `pyStrip` then discarding empties equals filtering on the
stripped value then mapping, as the comprehension at line 140 does. -/
theorem parseAltNames_eq_map_filter (l : List String) :
    (l.filter (fun nm => pyStrip nm != "")).map pyStrip
      = (l.map pyStrip).filter (fun t => t != "") := by
  induction l with
  | nil => rfl
  | cons x rest ih =>
    by_cases h : (pyStrip x != "") = true
    · simp only [List.filter_cons, List.map_cons, h, if_true, List.map_cons, ih]
    · simp only [Bool.not_eq_true] at h
      simp only [List.filter_cons, List.map_cons, h, Bool.false_eq_true, if_false, ih]

/-- Environment of claim C1: `openssl` available, no root CA file exists,
the operator answers `y` to the creation prompt. -/
def envC1 : Env :=
  { opensslAvailable := true, pathExists := fun _ => false,
    rootCAResponse := "y", domainResponse := "example.com",
    altNamesResponse := "admin.example.com" }

/-- The events of the decline branch at `certgen.py` lines 123-125. -/
def mainDeclineEvents : List Event :=
  [Event.print bannerText, Event.promptInput rootCAPromptMsg,
   Event.print "Cannot proceed without root CA certificate."]

/-- The events of the empty-domain abort at `certgen.py` lines 129-131. -/
def emptyDomainEvents : List Event :=
  [Event.print bannerText, Event.promptInput domainPromptMsg,
   Event.print "Domain cannot be empty!"]

/-- Claim C1: the claim says that answering `y` to the creation prompt
performs root CA issuance and proceeds to the domain input.  The code
instead calls `create_root_ca(prefixName="Local")` although
`create_root_ca` is declared with no parameters, so the run raises
`TypeError` and terminates before any issuance or domain prompt. -/
theorem c1_create_branch_raises_typeError :
    main envC1 = Except.error typeErrorMsg := rfl

/-- Claim C2 counterexample: `*.*.example.com` has the form `*.<rest>` with
`rest = *.example.com`, yet the config path strips the inner marker too,
because `str.replace` removes every occurrence of `*.`, not only the
leading one. -/
theorem c2_counterexample :
    (create_openssl_config "*.*.example.com" ["x"]).1 = "domains/example.com/openssl.cnf"
    ∧ (create_openssl_config "*.*.example.com" ["x"]).1
        ≠ "domains/" ++ "*.example.com" ++ "/openssl.cnf" := by
  exact ⟨rfl, by decide⟩

/-- Claim C2 as amended: every occurrence of the substring `*.` is removed
from the domain to form the directory name; in particular, for a domain
`*.<rest>` whose remainder contains no further `*.`, the config file goes
to `domains/<rest>/openssl.cnf`. -/
theorem c2_wildcard_directory (rest : String) (ns : List String)
    (h : hasSubstr "*." rest = false) :
    (create_openssl_config ("*." ++ rest) ns).1 = "domains/" ++ rest ++ "/openssl.cnf" := by
  show "domains/" ++ pyReplace ("*." ++ rest) "*." "" ++ "/openssl.cnf" = _
  rw [pyReplace_wildcard_head rest h]

/-- Witness for claim C2 at `rest = example.com`. -/
theorem c2_witness :
    hasSubstr "*." "example.com" = false
    ∧ (create_openssl_config ("*." ++ "example.com") ["a"]).1
        = "domains/" ++ "example.com" ++ "/openssl.cnf" :=
  ⟨by decide, c2_wildcard_directory "example.com" ["a"] (by decide)⟩

/-- Claim C3: the input domain is prepended to the parsed alternate-name
list when absent, and the list is unchanged when the domain is already an
element. -/
theorem c3_main_domain_prepended (domain : String) (altList : List String) :
    (domain ∉ altList → finalAltNames domain altList = domain :: altList)
    ∧ (domain ∈ altList → finalAltNames domain altList = altList) := by
  constructor
  · intro h; simp [finalAltNames, h]
  · intro h; simp [finalAltNames, h]

/-- Witness for claim C3: one absent case, one present case. -/
theorem c3_witness :
    finalAltNames "example.com" ["admin.example.com"]
      = ["example.com", "admin.example.com"]
    ∧ finalAltNames "example.com" ["example.com", "a.com"]
      = ["example.com", "a.com"] :=
  ⟨(c3_main_domain_prepended "example.com" ["admin.example.com"]).1 (by decide),
   (c3_main_domain_prepended "example.com" ["example.com", "a.com"]).2 (by decide)⟩

/-- Claim C4: the generated config contains exactly one `DNS.<n> = <name>`
line per alternate name, numbered consecutively from 1 in input order, and
no other DNS lines. -/
theorem c4_dns_block_exact (domain : String) (altNames : List String) :
    (configFileLines domain altNames).filter isDNSLine = specDnsBlock altNames := by
  unfold configFileLines configHeaderLines
  rw [List.filter_append, List.filter_append, filter_configHeaderPre,
    List.filter_cons]
  rw [isDNSLine_CN]
  simp only [Bool.false_eq_true, if_false, filter_configHeaderPost, filter_dnsLines,
    List.nil_append]
  unfold dnsLines specDnsBlock
  rw [enumFrom_eq_map altNames 1, List.map_map]
  rfl

/-- Environment of claim C5: root CA files absent, creation declined. -/
def envC5 : Env :=
  { opensslAvailable := true, pathExists := fun _ => false,
    rootCAResponse := "n", domainResponse := "example.com",
    altNamesResponse := "" }

/-- Claim C5: with the root CA files absent, the run prompts for creation
before any domain processing, and a declining answer terminates the run
having produced no directory, file write, or `openssl` invocation. -/
theorem c5_decline_no_artifacts (env : Env)
    (h1 : env.opensslAvailable = true)
    (h2 : (env.pathExists "LocalRootCA.key" && env.pathExists "LocalRootCA.crt"
            && env.pathExists "LocalRootCA.pem") = false)
    (h3 : pyLower (pyStrip env.rootCAResponse) ≠ "y") :
    main env = Except.ok mainDeclineEvents
    ∧ ∀ e ∈ mainDeclineEvents, isCreation e = false := by
  refine ⟨?_, by decide⟩
  simp [main, h1, h2, h3, mainDeclineEvents]

/-- Witness for claim C5 at a concrete declining environment. -/
theorem c5_witness :
    main envC5 = Except.ok mainDeclineEvents
    ∧ ∀ e ∈ mainDeclineEvents, isCreation e = false :=
  c5_decline_no_artifacts envC5 rfl rfl (by decide)

/-- Environment of claim C6: root CA present, domain `*.example.com`,
alternate names `admin.example.com, *.app.example.com`. -/
def envC6 : Env :=
  { opensslAvailable := true,
    pathExists := fun p =>
      p == "LocalRootCA.key" || p == "LocalRootCA.crt" || p == "LocalRootCA.pem",
    rootCAResponse := "",
    domainResponse := "*.example.com",
    altNamesResponse := "admin.example.com, *.app.example.com" }

set_option maxRecDepth 16384 in
/-- Claim C6: the example run.  The final alternate-name list is
`[*.example.com, admin.example.com, *.app.example.com]`, the config path is
`domains/example.com/openssl.cnf`, the run creates `domains/example.com`
and writes the key, CSR and certificate at
`domains/example.com/example.com.{key,csr,crt}`, and the `DNS.n` lines of
the config follow the list order. -/
theorem c6_example_run :
    finalAltNames (pyStrip "*.example.com")
        (parseAltNames (pyStrip "admin.example.com, *.app.example.com"))
      = ["*.example.com", "admin.example.com", "*.app.example.com"]
    ∧ (create_openssl_config "*.example.com"
        ["*.example.com", "admin.example.com", "*.app.example.com"]).1
      = "domains/example.com/openssl.cnf"
    ∧ Event.makedirs "domains/example.com" ∈ okEvents (main envC6)
    ∧ Event.writeFile "domains/example.com/openssl.cnf"
        (configContent "*.example.com"
          ["*.example.com", "admin.example.com", "*.app.example.com"])
        ∈ okEvents (main envC6)
    ∧ Event.run ["openssl", "genrsa", "-out", "domains/example.com/example.com.key", "2048"]
        ∈ okEvents (main envC6)
    ∧ Event.run ["openssl", "req", "-new", "-key", "domains/example.com/example.com.key",
        "-out", "domains/example.com/example.com.csr", "-config",
        "domains/example.com/openssl.cnf"] ∈ okEvents (main envC6)
    ∧ Event.run ["openssl", "x509", "-req", "-in", "domains/example.com/example.com.csr",
        "-CA", "LocalRootCA.crt", "-CAkey", "LocalRootCA.key", "-passin", "pass:1234",
        "-CAcreateserial", "-out", "domains/example.com/example.com.crt", "-days", "365",
        "-sha256", "-extfile", "domains/example.com/openssl.cnf", "-extensions", "v3_req"]
        ∈ okEvents (main envC6)
    ∧ (configFileLines "*.example.com"
        ["*.example.com", "admin.example.com", "*.app.example.com"]).filter isDNSLine
      = ["DNS.1 = *.example.com", "DNS.2 = admin.example.com", "DNS.3 = *.app.example.com"] :=
  ⟨by decide, by decide, by decide, by decide, by decide, by decide, by decide, by decide⟩

/-- Claim C7: a non-empty domain without a wildcard character is used
verbatim as the directory name under `domains/`. -/
theorem c7_verbatim_directory (domain : String) (ns : List String)
    (h0 : domain ≠ "") (h : pyContainsChar '*' domain = false) :
    (create_openssl_config domain ns).1 = "domains/" ++ domain ++ "/openssl.cnf" := by
  show "domains/" ++ pyReplace domain "*." "" ++ "/openssl.cnf" = _
  rw [pyReplace_of_no_star domain h]

/-- Witness for claim C7 at `example.com`. -/
theorem c7_witness :
    ("example.com" : String) ≠ ""
    ∧ pyContainsChar '*' "example.com" = false
    ∧ (create_openssl_config "example.com" ["example.com"]).1
        = "domains/" ++ "example.com" ++ "/openssl.cnf" :=
  ⟨by decide, by decide,
   c7_verbatim_directory "example.com" ["example.com"] (by decide) (by decide)⟩

/-- Environment of claim C8: root CA present, whitespace-only domain. -/
def envC8 : Env :=
  { opensslAvailable := true, pathExists := fun _ => true,
    rootCAResponse := "", domainResponse := "   ",
    altNamesResponse := "" }

/-- Claim C8: a domain that is empty after stripping produces the message
`Domain cannot be empty!` and a clean abort with no directory, file write,
or `openssl` invocation. -/
theorem c8_empty_domain_aborts (env : Env)
    (h1 : env.opensslAvailable = true)
    (h2 : (env.pathExists "LocalRootCA.key" && env.pathExists "LocalRootCA.crt"
            && env.pathExists "LocalRootCA.pem") = true)
    (h3 : pyStrip env.domainResponse = "") :
    main env = Except.ok emptyDomainEvents
    ∧ ∀ e ∈ emptyDomainEvents, isCreation e = false := by
  refine ⟨?_, by decide⟩
  simp [main, domainPhase, h1, h2, h3, emptyDomainEvents]

/-- Witness for claim C8 at a whitespace-only domain input. -/
theorem c8_witness :
    main envC8 = Except.ok emptyDomainEvents
    ∧ ∀ e ∈ emptyDomainEvents, isCreation e = false :=
  c8_empty_domain_aborts envC8 rfl rfl (by decide)

/-- Claim C9: the alternate-names input is split on commas, each segment is
stripped, and segments empty after stripping are discarded; `a, ,b,` parses
to exactly `[a, b]`. -/
theorem c9_parse_alt_names :
    (∀ s : String,
      parseAltNames s = ((pySplitComma s).map pyStrip).filter (fun t => t != ""))
    ∧ parseAltNames "a, ,b," = ["a", "b"] :=
  ⟨fun s => parseAltNames_eq_map_filter (pySplitComma s), by decide⟩

/-- Environment of claim C10: root CA files absent, operator answers
`yes`. -/
def envC10 : Env :=
  { opensslAvailable := true, pathExists := fun _ => false,
    rootCAResponse := "yes", domainResponse := "example.com",
    altNamesResponse := "" }

/-- Claim C10: with the root CA files absent, the creation branch is taken
exactly when the stripped, lowercased response equals `y` (in the code that
branch then raises the `TypeError` of line 122); any other response takes
the abort branch and terminates the run. -/
theorem c10_create_branch_iff_y (env : Env)
    (h1 : env.opensslAvailable = true)
    (h2 : (env.pathExists "LocalRootCA.key" && env.pathExists "LocalRootCA.crt"
            && env.pathExists "LocalRootCA.pem") = false) :
    (pyLower (pyStrip env.rootCAResponse) = "y" → main env = Except.error typeErrorMsg)
    ∧ (pyLower (pyStrip env.rootCAResponse) ≠ "y" → main env = Except.ok mainDeclineEvents) := by
  constructor
  · intro h3
    simp [main, h1, h2, h3, kwargsAccepted, create_root_ca_params, create_root_ca_callKwargs]
  · intro h3
    simp [main, h1, h2, h3, mainDeclineEvents]

/-- Witness for claim C10: the answer `yes` does not take the creation
branch; the run aborts. -/
theorem c10_witness :
    pyLower (pyStrip "yes") ≠ "y" ∧ main envC10 = Except.ok mainDeclineEvents :=
  ⟨by decide, (c10_create_branch_iff_y envC10 rfl rfl).2 (by decide)⟩

end Certgen
